import Mathlib

/-!
Verification development for the OutlierDB capture-session scraper
(`src/grepl/scrape/scrape_outlier.py`).

The Python program is shallowly embedded: the sqlite table `raw_page` is a
list of rows, the browser automation surface is an explicit environment of
oracles (whether the inner scroll container is found, whether the YouTube
iframes load, the rendered markup, whether the Next button becomes clickable
on a given attempt, and whether the document is hidden), and each method of
`OutlierDbSqlite` / `OutlierDbScraper` becomes a function threading the table
and, where the Python can raise, returning `Except`.
-/

namespace GreplScrape

/-- Row of the sqlite table `raw_page` created by `OutlierDbSqlite.create_table`:
columns `url`, `page_idx`, `scroll_idx`, `snapshot_ts`, `content`, with
`UNIQUE(url, page_idx, scroll_idx, snapshot_ts)`. -/
structure Row where
  url : String
  page_idx : Nat
  scroll_idx : Nat
  snapshot_ts : String
  content : String
deriving DecidableEq

/-- The `raw_page` table as a sequence of stored rows, in insertion order. -/
abbrev RawPageTable := List Row

/-- Whether the table already holds a row with the given value of the
UNIQUE key `(url, page_idx, scroll_idx, snapshot_ts)`. -/
def hasKey (db : RawPageTable) (url : String) (page_idx scroll_idx : Nat)
    (snapshot_ts : String) : Bool :=
  db.any fun r =>
    r.url == url && r.page_idx == page_idx && r.scroll_idx == scroll_idx &&
      r.snapshot_ts == snapshot_ts

/-- Error message sqlite raises for a duplicate-key plain INSERT. -/
def uniqueConstraintMsg : String :=
  "sqlite3.IntegrityError: UNIQUE constraint failed: raw_page"

/-- Embedding of `OutlierDbSqlite.save_page`: a plain
`INSERT INTO raw_page (url, page_idx, scroll_idx, snapshot_ts, content)`.
Under the UNIQUE constraint of `create_table`, sqlite appends the row when
the key is absent and raises `IntegrityError` when it is present (the code
does not use INSERT OR IGNORE); the surrounding transaction leaves the table
unchanged on the error. `snapshot_ts` is the `self.snapshot_ts` field fixed
in `OutlierDbSqlite.__init__`. -/
def save_page (db : RawPageTable) (snapshot_ts url : String)
    (page_idx scroll_idx : Nat) (html : String) : Except String RawPageTable :=
  if hasKey db url page_idx scroll_idx snapshot_ts then
    Except.error uniqueConstraintMsg
  else
    Except.ok (db ++ [⟨url, page_idx, scroll_idx, snapshot_ts, html⟩])

/-- Which surface a single scroll step moved. -/
inductive ScrollTarget where
  | container
  | window
deriving DecidableEq

/-- Observable effect of one `_scroll_container` call: which surface was
scrolled and by how many pixels. -/
structure ScrollEffect where
  target : ScrollTarget
  amount : Nat
deriving DecidableEq

/-- Modelled from the spec: the `degraded` flag of the Scroll Driver outcome
(spec section 4.1). In the code the degraded mode is not a return value but
the observable fallback path: the warning log plus the window scroll. -/
def ScrollEffect.degraded (e : ScrollEffect) : Bool :=
  e.target == ScrollTarget.window

/-- Constant `APPROX_CONTENT_HEIGHT` from the source. -/
def APPROX_CONTENT_HEIGHT : Nat := 900

/-- Embedding of `OutlierDbScraper._scroll_container`. The try/except around
`find_element` catches every failure to locate or scroll the inner
overflow-auto container (`containerFound = false`) and falls back to
`window.scrollBy(0, 4000)`; the fallback script itself raises only when the
remote automation session is unreachable (`automationUp = false`). The final
readyState wait is wrapped in its own try/except and never raises. -/
def scroll_container (automationUp containerFound : Bool)
    (content_height : Option Nat) : Except String ScrollEffect :=
  if automationUp then
    Except.ok
      (if containerFound then
        ⟨ScrollTarget.container, content_height.getD APPROX_CONTENT_HEIGHT⟩
      else
        ⟨ScrollTarget.window, 4000⟩)
  else
    Except.error "automation capability unreachable"

/-- Embedding of `OutlierDbScraper._wait_for_youtube_iframes`: returns true
when a YouTube iframe appeared within the timeout, false on timeout (the
timeout exception is caught and logged). `iframesFound` is the oracle for
the wait outcome. -/
def wait_for_youtube_iframes (iframesFound : Bool) : Bool :=
  iframesFound

/-- Constant `max_attempts` from `OutlierDbScraper.click_next_btn`. -/
def max_attempts : Nat := 20

/-- Result of one `click_next_btn` call: the boolean the Python function
returns, the number of automated locate-and-click attempts it made, and
whether it blocked on `input()` for manual intervention. -/
structure ClickNextOutcome where
  returned : Bool
  attemptsMade : Nat
  blockedOnInput : Bool
deriving DecidableEq

/-- The retry loop of `click_next_btn`: attempts are numbered from
`attempt`, with `fuel` attempts remaining; returns the total number of
attempts made on the first attempt whose clickable-wait succeeds, and `none`
when the fuel is exhausted. -/
def click_next_btn_loop (clickable : Nat → Bool) : Nat → Nat → Option Nat
  | _, 0 => none
  | attempt, fuel + 1 =>
    if clickable attempt then some (attempt + 1)
    else click_next_btn_loop clickable (attempt + 1) fuel

/-- Embedding of `OutlierDbScraper.click_next_btn`. `clickable i` is the
oracle for whether the enabled Next button becomes clickable within the 5s
wait on attempt `i`; `hidden` is `document.hidden`. After `max_attempts`
failures the code asks for manual intervention (blocking on `input()` and
returning True) when the document is visible, and returns False when it is
hidden. -/
def click_next_btn (clickable : Nat → Bool) (hidden : Bool) : ClickNextOutcome :=
  match click_next_btn_loop clickable 0 max_attempts with
  | some n => ⟨true, n, false⟩
  | none =>
    if !hidden then ⟨true, max_attempts, true⟩
    else ⟨false, max_attempts, false⟩

/-- Oracles for the browser automation surface during one session. Calls are
indexed by the position at which the code makes them: scroll and iframe
oracles by `(page_idx, scroll_idx)`, the markup by `(page_idx, scroll_idx)`,
and the Next-button clickable-wait by `(page_idx, attempt)`. -/
structure Env where
  automationUp : Bool
  containerFound : Nat → Nat → Bool
  iframesFound : Nat → Nat → Bool
  pageSource : Nat → Nat → String
  clickable : Nat → Nat → Bool
  hidden : Bool

/-- The row `scrape_page` persists for scroll step `scroll_idx` of page
`page_idx`. -/
def mkRow (env : Env) (snapshot_ts url : String) (page_idx scroll_idx : Nat) : Row :=
  ⟨url, page_idx, scroll_idx, snapshot_ts, env.pageSource page_idx scroll_idx⟩

/-- The scroll loop of `OutlierDbScraper.scrape_page` over the remaining
scroll indices: scroll, wait for iframes (result discarded), read
`page_source`, and `save_page` the snapshot. Exceptions propagate. -/
def scrape_page_go (env : Env) (snapshot_ts url : String) (page_idx : Nat) :
    List Nat → RawPageTable → Except String RawPageTable
  | [], db => Except.ok db
  | scroll_idx :: rest, db =>
    match scroll_container env.automationUp (env.containerFound page_idx scroll_idx) none with
    | Except.error e => Except.error e
    | Except.ok _ =>
      let _ready := wait_for_youtube_iframes (env.iframesFound page_idx scroll_idx)
      let html := env.pageSource page_idx scroll_idx
      match save_page db snapshot_ts url page_idx scroll_idx html with
      | Except.error e => Except.error e
      | Except.ok db1 => scrape_page_go env snapshot_ts url page_idx rest db1

/-- Embedding of `OutlierDbScraper.scrape_page(url, page_idx, n_scrolls)`:
`for scroll_idx in range(n_scrolls)`. -/
def scrape_page (env : Env) (snapshot_ts url : String) (page_idx n_scrolls : Nat)
    (db : RawPageTable) : Except String RawPageTable :=
  scrape_page_go env snapshot_ts url page_idx (List.range n_scrolls) db

/-- The scroll loop of `OutlierDbScraper.skip_page`: identical to the
capture loop but persisting nothing. -/
def skip_page_scroll_go (env : Env) (page_idx : Nat) : List Nat → Except String Unit
  | [] => Except.ok ()
  | scroll_idx :: rest =>
    match scroll_container env.automationUp (env.containerFound page_idx scroll_idx) none with
    | Except.error e => Except.error e
    | Except.ok _ =>
      let _ready := wait_for_youtube_iframes (env.iframesFound page_idx scroll_idx)
      skip_page_scroll_go env page_idx rest

/-- Embedding of `OutlierDbScraper.skip_page(page_idx, n_scrolls)` acting on
`self._pages_left_to_skip`: scroll through the page without persisting, do a
final scroll to the bottom (its errors are caught and logged), then call
`click_next_btn`; on success decrement the skip counter, on failure log a
warning and return with the counter unchanged. -/
def skip_page (env : Env) (page_idx n_scrolls pages_left_to_skip : Nat) :
    Except String Nat :=
  match skip_page_scroll_go env page_idx (List.range n_scrolls) with
  | Except.error e => Except.error e
  | Except.ok _ =>
    if (click_next_btn (env.clickable page_idx) env.hidden).returned then
      Except.ok (pages_left_to_skip - 1)
    else
      Except.ok pages_left_to_skip

/-- Spec section 4.4 states of the Capture Session, used to record the
observable trace of a run: one `CAPTURING page scroll` per persisted scroll
step, one `SKIPPING page` per `skip_page` call, one `ADVANCING` per
`click_next_btn` call made from the capture branch of `scrape_pages`,
`DONE` when the page budget is exhausted, and `TERMINATED_NO_MORE_PAGES`
when the capture branch breaks on a failed advance. -/
inductive SessionState where
  | SKIPPING (page : Nat)
  | CAPTURING (page scroll : Nat)
  | ADVANCING
  | DONE
  | TERMINATED_NO_MORE_PAGES
deriving DecidableEq

/-- The block of capture states a page contributes to the trace. -/
def capturingStates (page n_scrolls : Nat) : List SessionState :=
  (List.range n_scrolls).map (SessionState.CAPTURING page)

/-- Final state of a run of `scrape_pages`: the table, the final value of
`self._pages_left_to_skip`, and the state trace. -/
structure RunResult where
  db : RawPageTable
  pages_left_to_skip : Nat
  trace : List SessionState
deriving DecidableEq

/-- The page loop of `OutlierDbScraper.scrape_pages` over the remaining page
indices, threading the table and the skip counter:
`for page in range(n_pages): if skip counter positive then skip_page else
(scrape_page; if not click_next_btn(): break)`. -/
def scrape_pages_go (env : Env) (snapshot_ts url : String) (n_scrolls : Nat) :
    List Nat → Nat → RawPageTable → Except String RunResult
  | [], pages_left_to_skip, db =>
    Except.ok ⟨db, pages_left_to_skip, [SessionState.DONE]⟩
  | page :: rest, pages_left_to_skip, db =>
    if 0 < pages_left_to_skip then
      match skip_page env page n_scrolls pages_left_to_skip with
      | Except.error e => Except.error e
      | Except.ok skipLeft1 =>
        match scrape_pages_go env snapshot_ts url n_scrolls rest skipLeft1 db with
        | Except.error e => Except.error e
        | Except.ok r =>
          Except.ok ⟨r.db, r.pages_left_to_skip, SessionState.SKIPPING page :: r.trace⟩
    else
      match scrape_page env snapshot_ts url page n_scrolls db with
      | Except.error e => Except.error e
      | Except.ok db1 =>
        if (click_next_btn (env.clickable page) env.hidden).returned then
          match scrape_pages_go env snapshot_ts url n_scrolls rest pages_left_to_skip db1 with
          | Except.error e => Except.error e
          | Except.ok r =>
            Except.ok ⟨r.db, r.pages_left_to_skip,
              capturingStates page n_scrolls ++ SessionState.ADVANCING :: r.trace⟩
        else
          Except.ok ⟨db1, pages_left_to_skip,
            capturingStates page n_scrolls ++
              [SessionState.ADVANCING, SessionState.TERMINATED_NO_MORE_PAGES]⟩

/-- Embedding of `OutlierDbScraper.scrape_pages(url, n_scrolls, n_pages)`
for a scraper constructed with `start_page`: `OutlierDbScraper.__init__`
sets `self._pages_left_to_skip = start_page - 1`, and the run starts from
the table `db` already on disk. -/
def scrape_pages (env : Env) (snapshot_ts url : String)
    (n_scrolls n_pages start_page : Nat) (db : RawPageTable) :
    Except String RunResult :=
  scrape_pages_go env snapshot_ts url n_scrolls (List.range n_pages)
    (start_page - 1) db

/-- Rows persisted when capturing the given pages in order, `n_scrolls`
snapshots each. -/
def capturedRows (env : Env) (snapshot_ts url : String) (n_scrolls : Nat)
    (pages : List Nat) : RawPageTable :=
  pages.flatMap fun p => (List.range n_scrolls).map (mkRow env snapshot_ts url p)

/-- Trace contributed by capturing the given pages in order: each page is a
block of capture states followed by one pagination advance. -/
def captureTrace (n_scrolls : Nat) (pages : List Nat) : List SessionState :=
  pages.flatMap fun p => capturingStates p n_scrolls ++ [SessionState.ADVANCING]

/-- Modelled from the spec: the exact state sequence asserted by the
terminal-state determinism property of spec section 8 — capture blocks for
pages `0 .. N-1` separated by single `ADVANCING` states and closed by
`DONE`, with no `ADVANCING` after the final capture block. -/
def claimedTraceC7 (n_pages n_scrolls : Nat) : List SessionState :=
  List.intercalate [SessionState.ADVANCING]
    ((List.range n_pages).map fun p => capturingStates p n_scrolls) ++
    [SessionState.DONE]

/-- Projection of a run result onto its trace, for stating concrete
counterexamples without comparing table contents. -/
def traceOf : Except String RunResult → Option (List SessionState)
  | Except.ok r => some r.trace
  | Except.error _ => none

/-- Projection of a run result onto its table. -/
def dbOf : Except String RunResult → Option RawPageTable
  | Except.ok r => some r.db
  | Except.error _ => none

/-- Environment in which every Next-button wait succeeds on the first
attempt, the inner container is always found, iframes always load, and all
markup is the fixed string "html". -/
def envAdvOk : Env :=
  ⟨true, fun _ _ => true, fun _ _ => true, fun _ _ => "html", fun _ _ => true, false⟩

/-- Headless environment in which the Next button never becomes clickable
and `document.hidden` is true. -/
def envNeverClick : Env :=
  ⟨true, fun _ _ => true, fun _ _ => false, fun _ _ => "html", fun _ _ => false, true⟩

/-- Environment in which no inner scroll container is ever discoverable
(every scroll step takes the degraded window fallback) but pagination
succeeds. -/
def envNoContainer : Env :=
  ⟨true, fun _ _ => false, fun _ _ => false, fun _ _ => "html", fun _ _ => true, false⟩

/-- Every stored row carries the session snapshot timestamp and collection
url. -/
def RowInv (snapshot_ts url : String) (db : RawPageTable) : Prop :=
  ∀ row ∈ db, row.snapshot_ts = snapshot_ts ∧ row.url = url

/-- No two stored rows share the full UNIQUE key. -/
def KeysDistinct (db : RawPageTable) : Prop :=
  List.Pairwise (fun a b => ¬(a.url = b.url ∧ a.page_idx = b.page_idx ∧
    a.scroll_idx = b.scroll_idx ∧ a.snapshot_ts = b.snapshot_ts)) db

/-! ### Basic lemmas about the store -/

theorem hasKey_append (db1 db2 : RawPageTable) (u : String) (p s : Nat) (t : String) :
    hasKey (db1 ++ db2) u p s t = (hasKey db1 u p s t || hasKey db2 u p s t) := by
  simp [hasKey]

theorem hasKey_nil (u : String) (p s : Nat) (t : String) :
    hasKey [] u p s t = false := rfl

theorem hasKey_singleton (r : Row) (u : String) (p s : Nat) (t : String) :
    hasKey [r] u p s t =
      (r.url == u && r.page_idx == p && r.scroll_idx == s && r.snapshot_ts == t) := by
  simp [hasKey]

theorem save_page_of_fresh (db : RawPageTable) (t u : String) (p s : Nat) (h : String)
    (hfresh : hasKey db u p s t = false) :
    save_page db t u p s h = Except.ok (db ++ [⟨u, p, s, t, h⟩]) := by
  simp [save_page, hfresh]

/-! ### Lemmas about the pagination retry loop -/

theorem click_next_btn_loop_none (clickable : Nat → Bool) :
    ∀ (fuel attempt : Nat),
      (∀ i, attempt ≤ i → i < attempt + fuel → clickable i = false) →
      click_next_btn_loop clickable attempt fuel = none := by
  intro fuel
  induction fuel with
  | zero => intro attempt _; rfl
  | succ f ih =>
    intro attempt hfail
    rw [click_next_btn_loop]
    rw [hfail attempt (Nat.le_refl _) (by omega)]
    simp only [Bool.false_eq_true, if_false]
    exact ih (attempt + 1) fun i h1 h2 => hfail i (by omega) (by omega)

theorem click_next_btn_all_fail (clickable : Nat → Bool) (hidden : Bool)
    (hfail : ∀ i, i < max_attempts → clickable i = false) :
    click_next_btn clickable hidden =
      if hidden then ⟨false, max_attempts, false⟩ else ⟨true, max_attempts, true⟩ := by
  rw [click_next_btn,
    click_next_btn_loop_none clickable max_attempts 0 fun i _ h2 => hfail i (by omega)]
  cases hidden <;> rfl

/-- C1 counterexample: the claim says a second insert with an identical key
is a silent no-op that never raises; on the code a duplicate-key plain
INSERT raises the UNIQUE-constraint IntegrityError. -/
theorem C1_counterexample :
    save_page [⟨"u", 0, 0, "t", "markup1"⟩] "t" "u" 0 0 "markup2" =
      Except.error uniqueConstraintMsg := by
  rfl

/-- C1 amended: two inserts with identical key (collection_url, page_index,
scroll_index, capture_timestamp) and different markup store exactly one row
retaining the first-written markup, and the second insert never overwrites —
but instead of being a silent no-op it raises the UNIQUE-constraint error,
leaving the table unchanged. -/
theorem C1_amended_insert (snapshot_ts url : String) (page_idx scroll_idx : Nat)
    (markup1 markup2 : String) :
    save_page [] snapshot_ts url page_idx scroll_idx markup1 =
      Except.ok [⟨url, page_idx, scroll_idx, snapshot_ts, markup1⟩] ∧
    save_page [⟨url, page_idx, scroll_idx, snapshot_ts, markup1⟩]
        snapshot_ts url page_idx scroll_idx markup2 =
      Except.error uniqueConstraintMsg := by
  constructor
  · simp [save_page, hasKey]
  · simp [save_page, hasKey]

/-- C3: when the pagination control never becomes clickable, click_next_btn
makes exactly max_attempts (20) automated locate-and-click attempts, never
more and never fewer, and then either escalates to manual intervention
(blocking on input) or returns false. -/
theorem C3_bounded_retry (clickable : Nat → Bool) (hidden : Bool)
    (hfail : ∀ i, i < max_attempts → clickable i = false) :
    (click_next_btn clickable hidden).attemptsMade = max_attempts ∧
    ((click_next_btn clickable hidden).blockedOnInput = true ∨
      (click_next_btn clickable hidden).returned = false) := by
  rw [click_next_btn_all_fail clickable hidden hfail]
  cases hidden <;> simp

/-- C3 witness: a concrete never-clickable control in headless mode. -/
theorem C3_bounded_retry_witness :
    (click_next_btn (fun _ => false) true).attemptsMade = max_attempts ∧
    ((click_next_btn (fun _ => false) true).blockedOnInput = true ∨
      (click_next_btn (fun _ => false) true).returned = false) :=
  C3_bounded_retry (fun _ => false) true fun _ _ => rfl

/-! ### Characterization of the capture loop -/

theorem hasKey_capturedPage (env : Env) (t u : String) (a S p s : Nat)
    (hne : p ≠ a) :
    hasKey ((List.range S).map (mkRow env t u a)) u p s t = false := by
  simp only [hasKey, List.any_eq_false]
  intro x hx
  obtain ⟨s1, _, rfl⟩ := List.mem_map.mp hx
  simp [mkRow, Ne.symm hne]

theorem scrape_page_go_ok (env : Env) (t u : String) (p : Nat)
    (hA : env.automationUp = true) :
    ∀ (l : List Nat) (db : RawPageTable), l.Nodup →
      (∀ s ∈ l, hasKey db u p s t = false) →
      scrape_page_go env t u p l db =
        Except.ok (db ++ l.map (mkRow env t u p)) := by
  intro l
  induction l with
  | nil => intro db _ _; simp [scrape_page_go]
  | cons s rest ih =>
    intro db hnd hfresh
    have hfr : ∀ s1 ∈ rest,
        hasKey (db ++ [⟨u, p, s, t, env.pageSource p s⟩]) u p s1 t = false := by
      intro s1 hs1
      have hne : s1 ≠ s := by
        intro h
        exact (List.nodup_cons.mp hnd).1 (h ▸ hs1)
      rw [hasKey_append, hfresh s1 (List.mem_cons_of_mem s hs1), hasKey_singleton]
      simp [Ne.symm hne]
    rw [scrape_page_go, hA]
    simp only [scroll_container, if_true]
    simp only [save_page_of_fresh db t u p s _ (hfresh s (List.mem_cons_self s rest))]
    simp only [ih _ (List.nodup_cons.mp hnd).2 hfr]
    simp [mkRow]

theorem scrape_page_ok (env : Env) (t u : String) (p S : Nat) (db : RawPageTable)
    (hA : env.automationUp = true)
    (hfresh : ∀ s, hasKey db u p s t = false) :
    scrape_page env t u p S db =
      Except.ok (db ++ (List.range S).map (mkRow env t u p)) :=
  scrape_page_go_ok env t u p hA (List.range S) db (List.nodup_range S)
    fun s _ => hfresh s

/-- C10: a call of scrape_page with n_scrolls scroll steps, in an
environment where the automation capability is reachable and persistence
succeeds (no key of the page is already stored), persists exactly n_scrolls
snapshots, one per scroll step, with scroll_idx running through
0..n_scrolls-1 in increasing order, each carrying the given url and
page_idx; the readiness-wait result (env.iframesFound, which may be false
at every step) never suppresses a snapshot. -/
theorem C10_scrape_page_snapshots (env : Env) (snapshot_ts url : String)
    (page_idx n_scrolls : Nat) (db : RawPageTable)
    (hA : env.automationUp = true)
    (hfresh : ∀ s, hasKey db url page_idx s snapshot_ts = false) :
    scrape_page env snapshot_ts url page_idx n_scrolls db =
      Except.ok (db ++ (List.range n_scrolls).map (mkRow env snapshot_ts url page_idx)) ∧
    ((List.range n_scrolls).map (mkRow env snapshot_ts url page_idx)).map Row.scroll_idx =
      List.range n_scrolls ∧
    ∀ r ∈ (List.range n_scrolls).map (mkRow env snapshot_ts url page_idx),
      r.url = url ∧ r.page_idx = page_idx := by
  refine ⟨scrape_page_ok env snapshot_ts url page_idx n_scrolls db hA hfresh, ?_, ?_⟩
  · rw [List.map_map]
    have hcomp : Row.scroll_idx ∘ mkRow env snapshot_ts url page_idx = id :=
      funext fun s => rfl
    rw [hcomp, List.map_id]
  · intro r hr
    obtain ⟨s, _, rfl⟩ := List.mem_map.mp hr
    exact ⟨rfl, rfl⟩

/-- C10 witness: three scroll steps on page 4 of an empty table, in an
environment where every readiness wait times out (returns false). -/
theorem C10_scrape_page_snapshots_witness :
    scrape_page envNoContainer "t" "u" 4 3 [] =
      Except.ok ((List.range 3).map (mkRow envNoContainer "t" "u" 4)) ∧
    ((List.range 3).map (mkRow envNoContainer "t" "u" 4)).map Row.scroll_idx =
      List.range 3 ∧
    ∀ r ∈ (List.range 3).map (mkRow envNoContainer "t" "u" 4),
      r.url = "u" ∧ r.page_idx = 4 := by
  have h := C10_scrape_page_snapshots envNoContainer "t" "u" 4 3 [] rfl fun _ => rfl
  simpa using h

/-- C4: when no inner scrollable container is discoverable and the
automation capability itself is reachable, a scroll step does not raise: it
falls back to scrolling the top-level window (by the larger fixed offset of
4000 pixels), an outcome flagged degraded, and the capture session
continues persisting its snapshots rather than aborting. -/
theorem C4_degraded_fallback (env : Env) (snapshot_ts url : String)
    (page_idx n_scrolls : Nat) (db : RawPageTable)
    (hA : env.automationUp = true)
    (hNoC : ∀ p s, env.containerFound p s = false)
    (hfresh : ∀ s, hasKey db url page_idx s snapshot_ts = false) :
    (∀ p s ch, scroll_container env.automationUp (env.containerFound p s) ch =
        Except.ok ⟨ScrollTarget.window, 4000⟩) ∧
    ScrollEffect.degraded ⟨ScrollTarget.window, 4000⟩ = true ∧
    scrape_page env snapshot_ts url page_idx n_scrolls db =
      Except.ok (db ++ (List.range n_scrolls).map (mkRow env snapshot_ts url page_idx)) := by
  refine ⟨?_, rfl, scrape_page_ok env snapshot_ts url page_idx n_scrolls db hA hfresh⟩
  intro p s ch
  rw [hA, hNoC p s]
  rfl

/-- C4 witness: the container-free environment, two scroll steps on page 0. -/
theorem C4_degraded_fallback_witness :
    (∀ p s ch, scroll_container envNoContainer.automationUp
        (envNoContainer.containerFound p s) ch =
        Except.ok ⟨ScrollTarget.window, 4000⟩) ∧
    ScrollEffect.degraded ⟨ScrollTarget.window, 4000⟩ = true ∧
    scrape_page envNoContainer "t" "u" 0 2 [] =
      Except.ok ((List.range 2).map (mkRow envNoContainer "t" "u" 0)) := by
  have h := C4_degraded_fallback envNoContainer "t" "u" 0 2 [] rfl
    (fun _ _ => rfl) (fun _ => rfl)
  simpa using h

/-! ### Characterization of the skip path and of whole sessions -/

theorem skip_page_scroll_go_ok (env : Env) (p : Nat) (hA : env.automationUp = true) :
    ∀ l : List Nat, skip_page_scroll_go env p l = Except.ok () := by
  intro l
  induction l with
  | nil => rfl
  | cons s rest ih =>
    rw [skip_page_scroll_go, hA]
    simpa [scroll_container] using ih

theorem skip_page_eq (env : Env) (p S sk : Nat) (hA : env.automationUp = true) :
    skip_page env p S sk =
      Except.ok (if (click_next_btn (env.clickable p) env.hidden).returned
        then sk - 1 else sk) := by
  rw [skip_page, skip_page_scroll_go_ok env p hA]
  cases hr : (click_next_btn (env.clickable p) env.hidden).returned <;> simp [hr]

theorem scrape_pages_go_success (env : Env) (t u : String) (S : Nat)
    (hA : env.automationUp = true)
    (hadv : ∀ p, (click_next_btn (env.clickable p) env.hidden).returned = true) :
    ∀ (n a sk : Nat) (db : RawPageTable),
      (∀ p s, a ≤ p → hasKey db u p s t = false) →
      scrape_pages_go env t u S (List.range' a n) sk db =
        Except.ok ⟨db ++ capturedRows env t u S (List.range' (a + min sk n) (n - sk)),
          sk - n,
          (List.range' a (min sk n)).map SessionState.SKIPPING ++
            captureTrace S (List.range' (a + min sk n) (n - sk)) ++
            [SessionState.DONE]⟩ := by
  intro n
  induction n with
  | zero =>
    intro a sk db _
    simp [scrape_pages_go, capturedRows, captureTrace, List.range']
  | succ m ih =>
    intro a sk db hfresh
    rw [List.range'_succ]
    cases sk with
    | zero =>
      have hpage : scrape_page env t u a S db =
          Except.ok (db ++ (List.range S).map (mkRow env t u a)) :=
        scrape_page_ok env t u a S db hA fun s => hfresh a s (Nat.le_refl a)
      have hfresh1 : ∀ p s, a + 1 ≤ p →
          hasKey (db ++ (List.range S).map (mkRow env t u a)) u p s t = false := by
        intro p s hp
        rw [hasKey_append, hfresh p s (by omega), hasKey_capturedPage env t u a S p s (by omega)]
        rfl
      rw [scrape_pages_go]
      simp only [Nat.lt_irrefl, if_false, hpage, hadv a, if_true]
      simp only [ih (a + 1) 0 (db ++ (List.range S).map (mkRow env t u a)) hfresh1]
      simp only [Nat.zero_sub, Nat.min_zero, Nat.zero_min, Nat.sub_zero, Nat.add_zero,
        List.range', List.map_nil, List.nil_append]
      simp [capturedRows, captureTrace, List.append_assoc]
    | succ sk1 =>
      have hskip : skip_page env a S (sk1 + 1) = Except.ok sk1 := by
        rw [skip_page_eq env a S (sk1 + 1) hA, hadv a]
        simp
      have hfresh1 : ∀ p s, a + 1 ≤ p → hasKey db u p s t = false :=
        fun p s hp => hfresh p s (by omega)
      rw [scrape_pages_go]
      simp only [Nat.zero_lt_succ, if_true, hskip]
      simp only [ih (a + 1) sk1 db hfresh1]
      simp only [Nat.succ_min_succ, Nat.succ_sub_succ]
      have hmin : a + (min sk1 m + 1) = a + 1 + min sk1 m := by omega
      rw [hmin, List.range'_succ]
      simp

/-- A session that is still skipping and whose pagination advance always
fails keeps skipping every remaining budget page: the skip counter and the
table never change, and the trace is one SKIPPING state per budget page
followed by DONE. -/
theorem scrape_pages_go_skip_fail (env : Env) (t u : String) (S : Nat)
    (hA : env.automationUp = true)
    (hfail : ∀ p, (click_next_btn (env.clickable p) env.hidden).returned = false) :
    ∀ (ps : List Nat) (sk : Nat) (db : RawPageTable), 0 < sk →
      scrape_pages_go env t u S ps sk db =
        Except.ok ⟨db, sk, ps.map SessionState.SKIPPING ++ [SessionState.DONE]⟩ := by
  intro ps
  induction ps with
  | nil => intro sk db _; simp [scrape_pages_go]
  | cons page rest ih =>
    intro sk db hsk
    have hskip : skip_page env page S sk = Except.ok sk := by
      rw [skip_page_eq env page S sk hA, hfail page]
      simp
    rw [scrape_pages_go]
    simp only [hsk, if_true, hskip]
    simp only [ih sk db hsk]
    simp

/-- C2: a session started with resume offset k (1-based, k at least 1,
within a budget of at least k pages and at least one scroll step per page)
in which every pagination advance succeeds persists zero snapshots for
pages 0..k-2 — every persisted row has page index at least k-1 — and the
first persisted snapshot has page index k-1. -/
theorem C2_resume_skip (env : Env) (snapshot_ts url : String) (S N k : Nat)
    (hA : env.automationUp = true)
    (hadv : ∀ p, (click_next_btn (env.clickable p) env.hidden).returned = true)
    (hk : 1 ≤ k) (hkN : k ≤ N) (hS : 1 ≤ S) :
    scrape_pages env snapshot_ts url S N k [] =
      Except.ok ⟨capturedRows env snapshot_ts url S (List.range' (k - 1) (N - (k - 1))),
        0,
        (List.range' 0 (k - 1)).map SessionState.SKIPPING ++
          captureTrace S (List.range' (k - 1) (N - (k - 1))) ++ [SessionState.DONE]⟩ ∧
    (∀ row ∈ capturedRows env snapshot_ts url S (List.range' (k - 1) (N - (k - 1))),
      k - 1 ≤ row.page_idx) ∧
    (capturedRows env snapshot_ts url S (List.range' (k - 1) (N - (k - 1)))).head?.map
      Row.page_idx = some (k - 1) := by
  have hmin : min (k - 1) N = k - 1 := by omega
  have hsub : k - 1 - N = 0 := by omega
  refine ⟨?_, ?_, ?_⟩
  · rw [scrape_pages, List.range_eq_range',
      scrape_pages_go_success env snapshot_ts url S hA hadv N 0 (k - 1) []
        (fun p s _ => rfl)]
    rw [hmin, hsub, Nat.zero_add]
    simp
  · intro row hrow
    obtain ⟨p, hp, hrow1⟩ := List.mem_flatMap.mp hrow
    obtain ⟨s, _, rfl⟩ := List.mem_map.mp hrow1
    have := (List.mem_range'_1.mp hp).1
    simpa [mkRow] using this
  · have hN1 : N - (k - 1) = (N - k) + 1 := by omega
    obtain ⟨s1, rfl⟩ : ∃ s1, S = s1 + 1 := ⟨S - 1, by omega⟩
    rw [hN1, List.range'_succ]
    simp [capturedRows, List.range_eq_range', List.range'_succ, mkRow]

/-- C2 witness: resume offset 2 with a 3-page budget and 1 scroll step. -/
theorem C2_resume_skip_witness :
    scrape_pages envAdvOk "t" "u" 1 3 2 [] =
      Except.ok ⟨capturedRows envAdvOk "t" "u" 1 (List.range' 1 2), 0,
        (List.range' 0 1).map SessionState.SKIPPING ++
          captureTrace 1 (List.range' 1 2) ++ [SessionState.DONE]⟩ :=
  (C2_resume_skip envAdvOk "t" "u" 1 3 2 rfl (fun _ => rfl)
    (by decide) (by decide) (by decide)).1

/-- C5 counterexample: in a headless session with resume offset 3 and
budget 2 whose pagination advance always fails, the skip-advance of page 0
fails (click_next_btn returns false), yet the session does not terminate:
it goes on to skip-process page 1 (the trace contains SKIPPING 1 after
SKIPPING 0), contradicting the claim that no further page processing
happens after a failed skip-advance. -/
theorem C5_counterexample :
    (click_next_btn (envNeverClick.clickable 0) envNeverClick.hidden).returned = false ∧
    traceOf (scrape_pages envNeverClick "t" "u" 1 2 3 []) =
      some [SessionState.SKIPPING 0, SessionState.SKIPPING 1, SessionState.DONE] := by
  constructor
  · rfl
  · rfl

/-- C5 amended: when a skip-advance fails, the session logs a warning but
does not terminate: it leaves the skip counter unchanged and continues to
skip-process the remaining budget pages. While every advance fails and the
skip counter stays positive, the session never enters capture mode, never
persists a snapshot, and ends with DONE only when the page budget is
exhausted — one SKIPPING state per budget page. -/
theorem C5_amended_skip_failure (env : Env) (snapshot_ts url : String) (S N k : Nat)
    (hA : env.automationUp = true)
    (hfail : ∀ p, (click_next_btn (env.clickable p) env.hidden).returned = false)
    (hk : 2 ≤ k) :
    scrape_pages env snapshot_ts url S N k [] =
      Except.ok ⟨[], k - 1,
        (List.range N).map SessionState.SKIPPING ++ [SessionState.DONE]⟩ := by
  rw [scrape_pages]
  exact scrape_pages_go_skip_fail env snapshot_ts url S hA hfail
    (List.range N) (k - 1) [] (by omega)

/-- C5 amended witness: one budget page, resume offset 2, advance failing. -/
theorem C5_amended_skip_failure_witness :
    scrape_pages envNeverClick "t" "u" 1 1 2 [] =
      Except.ok ⟨[], 1,
        (List.range 1).map SessionState.SKIPPING ++ [SessionState.DONE]⟩ :=
  C5_amended_skip_failure envNeverClick "t" "u" 1 1 2 rfl (fun _ => rfl) (by decide)

/-- C7 counterexample: with budget N = 1 and S = 1 and pagination
succeeding, the spec-claimed sequence ends CAPTURING(0,0) then DONE, but
the code calls click_next_btn after the last captured page as well, so the
actual trace has an ADVANCING state between the final capture block and
DONE. -/
theorem C7_counterexample :
    traceOf (scrape_pages envAdvOk "t" "u" 1 1 1 []) ≠ some (claimedTraceC7 1 1) := by
  decide

/-- C7 amended: with a page budget of N pages, no resume offset, and every
pagination advance succeeding, the session visits
CAPTURING(0,0..S-1), ADVANCING, CAPTURING(1,0..S-1), ADVANCING, …,
CAPTURING(N-1,0..S-1), ADVANCING, DONE in that exact order — there is one
ADVANCING after every capture block, including the final one. -/
theorem C7_amended_trace (env : Env) (snapshot_ts url : String) (S N : Nat)
    (hA : env.automationUp = true)
    (hadv : ∀ p, (click_next_btn (env.clickable p) env.hidden).returned = true) :
    scrape_pages env snapshot_ts url S N 1 [] =
      Except.ok ⟨capturedRows env snapshot_ts url S (List.range N), 0,
        captureTrace S (List.range N) ++ [SessionState.DONE]⟩ := by
  rw [scrape_pages, List.range_eq_range',
    scrape_pages_go_success env snapshot_ts url S hA hadv N 0 (1 - 1) []
      (fun p s _ => rfl)]
  simp

/-- C7 amended witness: two pages, one scroll step each. -/
theorem C7_amended_trace_witness :
    scrape_pages envAdvOk "t" "u" 1 2 1 [] =
      Except.ok ⟨capturedRows envAdvOk "t" "u" 1 (List.range 2), 0,
        captureTrace 1 (List.range 2) ++ [SessionState.DONE]⟩ :=
  C7_amended_trace envAdvOk "t" "u" 1 2 rfl (fun _ => rfl)

/-- C8: in an unattended run (document hidden) where the pagination control
never becomes clickable, click_next_btn returns false after exactly
max_attempts attempts without blocking on input, and the session ends in
the clean TERMINATED_NO_MORE_PAGES shutdown right after the first captured
page. -/
theorem C8_unattended_termination (env : Env) (snapshot_ts url : String) (S N : Nat)
    (hA : env.automationUp = true) (hH : env.hidden = true)
    (hnc : ∀ p i, env.clickable p i = false) (hN : 1 ≤ N) :
    (∀ p, click_next_btn (env.clickable p) env.hidden =
      ⟨false, max_attempts, false⟩) ∧
    scrape_pages env snapshot_ts url S N 1 [] =
      Except.ok ⟨(List.range S).map (mkRow env snapshot_ts url 0), 0,
        capturingStates 0 S ++
          [SessionState.ADVANCING, SessionState.TERMINATED_NO_MORE_PAGES]⟩ := by
  have hclick : ∀ p, click_next_btn (env.clickable p) env.hidden =
      ⟨false, max_attempts, false⟩ := by
    intro p
    rw [click_next_btn_all_fail (env.clickable p) env.hidden fun i _ => hnc p i, hH]
    rfl
  refine ⟨hclick, ?_⟩
  obtain ⟨m, rfl⟩ : ∃ m, N = m + 1 := ⟨N - 1, by omega⟩
  have hpage : scrape_page env snapshot_ts url 0 S [] =
      Except.ok ([] ++ (List.range S).map (mkRow env snapshot_ts url 0)) :=
    scrape_page_ok env snapshot_ts url 0 S [] hA fun _ => rfl
  rw [scrape_pages, List.range_eq_range', List.range'_succ, scrape_pages_go]
  simp only [Nat.sub_self, Nat.lt_irrefl, if_false, hpage, hclick 0]
  simp

/-- C8 witness: the headless never-clickable environment, one page and one
scroll step. -/
theorem C8_unattended_termination_witness :
    (∀ p, click_next_btn (envNeverClick.clickable p) envNeverClick.hidden =
      ⟨false, max_attempts, false⟩) ∧
    scrape_pages envNeverClick "t" "u" 1 1 1 [] =
      Except.ok ⟨(List.range 1).map (mkRow envNeverClick "t" "u" 0), 0,
        capturingStates 0 1 ++
          [SessionState.ADVANCING, SessionState.TERMINATED_NO_MORE_PAGES]⟩ :=
  C8_unattended_termination envNeverClick "t" "u" 1 1 rfl rfl
    (fun _ _ => rfl) (by decide)

/-- C9 counterexample: with scroll_steps_per_page = 3, page_budget = 1,
resume_from_page = 2 and pagination succeeding, the single budget iteration
is consumed by skipping page 0, so the run persists zero snapshots — not
the 3 snapshots with page_index = 1 the claim expects. -/
theorem C9_counterexample :
    dbOf (scrape_pages envAdvOk "ts" "https://example.test/list" 3 1 2 []) =
      some [] ∧
    traceOf (scrape_pages envAdvOk "ts" "https://example.test/list" 3 1 2 []) =
      some [SessionState.SKIPPING 0, SessionState.DONE] := by
  constructor
  · rfl
  · rfl

/-- C9 amended: skipped pages count against the page budget. With
page_budget = 1 and resume_from_page = 2 the session persists nothing at
all (the skip consumes the budget); a budget of 2 pages is needed to get
the expected outcome of 0 snapshots for page 0 followed by exactly 3
snapshots with page_index = 1. -/
theorem C9_amended_budget (env : Env) (snapshot_ts : String)
    (hA : env.automationUp = true)
    (hadv : ∀ p, (click_next_btn (env.clickable p) env.hidden).returned = true) :
    scrape_pages env snapshot_ts "https://example.test/list" 3 1 2 [] =
      Except.ok ⟨[], 0, [SessionState.SKIPPING 0, SessionState.DONE]⟩ ∧
    scrape_pages env snapshot_ts "https://example.test/list" 3 2 2 [] =
      Except.ok ⟨(List.range 3).map
          (mkRow env snapshot_ts "https://example.test/list" 1), 0,
        SessionState.SKIPPING 0 :: capturingStates 1 3 ++
          [SessionState.ADVANCING, SessionState.DONE]⟩ := by
  constructor
  · rw [scrape_pages, List.range_eq_range',
      scrape_pages_go_success env snapshot_ts "https://example.test/list" 3 hA hadv
        1 0 (2 - 1) [] (fun p s _ => rfl)]
    simp [capturedRows, captureTrace, List.range'_succ, List.range']
  · rw [scrape_pages, List.range_eq_range',
      scrape_pages_go_success env snapshot_ts "https://example.test/list" 3 hA hadv
        2 0 (2 - 1) [] (fun p s _ => rfl)]
    simp [capturedRows, captureTrace, List.range'_succ, List.range']

/-- C9 amended witness: budget 1 leg of the amended claim in the concrete
always-advancing environment. -/
theorem C9_amended_budget_witness :
    scrape_pages envAdvOk "ts" "https://example.test/list" 3 1 2 [] =
      Except.ok ⟨[], 0, [SessionState.SKIPPING 0, SessionState.DONE]⟩ :=
  (C9_amended_budget envAdvOk "ts" rfl (fun _ => rfl)).1

/-! ### Invariants of arbitrary runs, for the shared-timestamp claim -/

theorem not_keyEq_of_hasKey_false {db : RawPageTable} {u : String} {p s : Nat}
    {t : String} (h : hasKey db u p s t = false) :
    ∀ r ∈ db, ¬(r.url = u ∧ r.page_idx = p ∧ r.scroll_idx = s ∧ r.snapshot_ts = t) := by
  rw [hasKey, List.any_eq_false] at h
  intro r hr hkey
  have h1 := h r hr
  simp [hkey.1, hkey.2.1, hkey.2.2.1, hkey.2.2.2] at h1

theorem save_page_ok_inv {db db1 : RawPageTable} {t u : String} {p s : Nat}
    {h : String} (hok : save_page db t u p s h = Except.ok db1)
    (hinv : RowInv t u db) (hkd : KeysDistinct db) :
    RowInv t u db1 ∧ KeysDistinct db1 := by
  rw [save_page] at hok
  cases hc : hasKey db u p s t
  · rw [hc] at hok
    simp at hok
    subst hok
    constructor
    · intro row hrow
      rcases List.mem_append.mp hrow with hl | hr
      · exact hinv row hl
      · rw [List.mem_singleton.mp hr]
        exact ⟨rfl, rfl⟩
    · refine List.pairwise_append.mpr ⟨hkd, List.pairwise_singleton _ _, ?_⟩
      intro a ha b hb
      rw [List.mem_singleton.mp hb]
      exact not_keyEq_of_hasKey_false hc a ha
  · rw [hc] at hok
    simp at hok

theorem scrape_page_go_inv (env : Env) (t u : String) (p : Nat) :
    ∀ (l : List Nat) (db db1 : RawPageTable),
      scrape_page_go env t u p l db = Except.ok db1 →
      RowInv t u db → KeysDistinct db → RowInv t u db1 ∧ KeysDistinct db1 := by
  intro l
  induction l with
  | nil =>
    intro db db1 hok hinv hkd
    rw [scrape_page_go] at hok
    simp at hok
    subst hok
    exact ⟨hinv, hkd⟩
  | cons s rest ih =>
    intro db db1 hok hinv hkd
    rw [scrape_page_go] at hok
    cases hA : env.automationUp
    · rw [hA] at hok
      simp [scroll_container] at hok
    · rw [hA] at hok
      simp only [scroll_container, if_true] at hok
      cases hsp : save_page db t u p s (env.pageSource p s) with
      | error e => rw [hsp] at hok; simp at hok
      | ok db2 =>
        rw [hsp] at hok
        simp at hok
        obtain ⟨hinv2, hkd2⟩ := save_page_ok_inv hsp hinv hkd
        exact ih db2 db1 hok hinv2 hkd2

theorem scrape_pages_go_inv (env : Env) (t u : String) (S : Nat) :
    ∀ (ps : List Nat) (sk : Nat) (db : RawPageTable) (r : RunResult),
      scrape_pages_go env t u S ps sk db = Except.ok r →
      RowInv t u db → KeysDistinct db → RowInv t u r.db ∧ KeysDistinct r.db := by
  intro ps
  induction ps with
  | nil =>
    intro sk db r hok hinv hkd
    rw [scrape_pages_go] at hok
    simp at hok
    subst hok
    exact ⟨hinv, hkd⟩
  | cons page rest ih =>
    intro sk db r hok hinv hkd
    rw [scrape_pages_go] at hok
    by_cases hsk : 0 < sk
    · rw [if_pos hsk] at hok
      cases hskip : skip_page env page S sk with
      | error e => rw [hskip] at hok; simp at hok
      | ok sk1 =>
        rw [hskip] at hok
        simp only [] at hok
        cases hrec : scrape_pages_go env t u S rest sk1 db with
        | error e => rw [hrec] at hok; simp at hok
        | ok r1 =>
          rw [hrec] at hok
          simp at hok
          obtain ⟨h1, h2⟩ := ih sk1 db r1 hrec hinv hkd
          subst hok
          exact ⟨h1, h2⟩
    · rw [if_neg hsk] at hok
      cases hpage : scrape_page env t u page S db with
      | error e => rw [hpage] at hok; simp at hok
      | ok db2 =>
        rw [hpage] at hok
        simp only [] at hok
        obtain ⟨hinv2, hkd2⟩ :=
          scrape_page_go_inv env t u page (List.range S) db db2 hpage hinv hkd
        cases hret : (click_next_btn (env.clickable page) env.hidden).returned
        · rw [hret] at hok
          simp at hok
          subst hok
          exact ⟨hinv2, hkd2⟩
        · rw [hret] at hok
          simp only [if_true] at hok
          cases hrec : scrape_pages_go env t u S rest sk db2 with
          | error e => rw [hrec] at hok; simp at hok
          | ok r1 =>
            rw [hrec] at hok
            simp at hok
            obtain ⟨h1, h2⟩ := ih sk db2 r1 hrec hinv2 hkd2
            subst hok
            exact ⟨h1, h2⟩

theorem pairwise_page_scroll (t u : String) (db : RawPageTable)
    (hinv : RowInv t u db) (hkd : KeysDistinct db) :
    List.Pairwise (fun a b => ¬(a.page_idx = b.page_idx ∧
      a.scroll_idx = b.scroll_idx)) db := by
  refine List.Pairwise.imp_of_mem ?_ hkd
  intro a b ha hb hR hps
  exact hR ⟨(hinv a ha).2.trans (hinv b hb).2.symm, hps.1, hps.2,
    (hinv a ha).1.trans (hinv b hb).1.symm⟩

/-- C6: the snapshot timestamp is fixed once per session (in the store
constructor) and every row a run persists carries that one timestamp (and
the one collection url), so rows of a run are distinguished only by page
index and scroll index — no two rows of the run share the same
(page_idx, scroll_idx) pair. Holds for every run that returns, whether it
ends in DONE or TERMINATED_NO_MORE_PAGES. -/
theorem C6_shared_timestamp (env : Env) (snapshot_ts url : String)
    (S N k : Nat) (r : RunResult)
    (hok : scrape_pages env snapshot_ts url S N k [] = Except.ok r) :
    (∀ row ∈ r.db, row.snapshot_ts = snapshot_ts ∧ row.url = url) ∧
    List.Pairwise (fun a b => ¬(a.page_idx = b.page_idx ∧
      a.scroll_idx = b.scroll_idx)) r.db := by
  rw [scrape_pages] at hok
  have h := scrape_pages_go_inv env snapshot_ts url S (List.range N) (k - 1) [] r hok
    (by intro row hrow; cases hrow) List.Pairwise.nil
  exact ⟨h.1, pairwise_page_scroll snapshot_ts url r.db h.1 h.2⟩

/-- C6 witness: the one-page one-scroll run in the always-advancing
environment. -/
theorem C6_shared_timestamp_witness :
    (∀ row ∈ ([⟨"u", 0, 0, "t", "html"⟩] : RawPageTable),
      row.snapshot_ts = "t" ∧ row.url = "u") ∧
    List.Pairwise (fun a b => ¬(a.page_idx = b.page_idx ∧
      a.scroll_idx = b.scroll_idx)) ([⟨"u", 0, 0, "t", "html"⟩] : RawPageTable) :=
  C6_shared_timestamp envAdvOk "t" "u" 1 1 1
    ⟨[⟨"u", 0, 0, "t", "html"⟩], 0,
      [SessionState.CAPTURING 0 0, SessionState.ADVANCING, SessionState.DONE]⟩ rfl

end GreplScrape
